import Mathlib

/-!
Verification development for the 3d-gen desktop shell
(src/modules/3d-gen-desktop/src-tauri/src/main.rs).

The file embeds the two components of the program:
  * the Menu Builder (`build_menu`), which constructs the static native
    menu tree against a host windowing layer that may reject each
    creation call, and
  * the Action Dispatcher (`on_menu_event` / `emit_menu_action`), which
    maps a clicked menu identifier to a single fire-and-forget
    `menu-action` event.

The host windowing layer (tauri) is abstracted by the `Host` structure:
each creation call either succeeds, in which case the created node is
fully determined by the arguments passed (exactly as
`MenuItem::with_id`, `Submenu::with_items` and `Menu::with_items`
construct their results from their arguments), or fails with an opaque
error value that the `?` operator propagates unchanged.  Event delivery
is abstracted by a `deliver` function whose result the source discards
with `let _ = ...`.
-/

namespace LoCo

/-- A node of the native menu tree: a leaf item carrying an identifier,
a label and an enabled flag, or a submenu carrying a label, an enabled
flag and a list of children. -/
inductive MenuNode where
  | item : String → String → Bool → MenuNode
  | submenu : String → Bool → List MenuNode → MenuNode

/-- The host windowing layer behind `tauri::AppHandle`.  For every
creation call it either accepts (`none`) or rejects with an error value
(`some e`), mirroring the fallibility of `MenuItem::with_id`,
`Submenu::with_items` and `Menu::with_items`. -/
structure Host (E : Type) where
  itemErr : String → String → Bool → Option E
  submenuErr : String → Bool → List MenuNode → Option E
  menuErr : List MenuNode → Option E

/-- `MenuItem::with_id(app, id, label, enabled, None)`: on success the
item holds exactly the identifier, label and enabled flag it was given. -/
def mkMenuItem {E : Type} (h : Host E) (id label : String) (enabled : Bool) :
    Except E MenuNode :=
  match h.itemErr id label enabled with
  | some e => .error e
  | none => .ok (.item id label enabled)

/-- `Submenu::with_items(app, label, enabled, children)`. -/
def mkSubmenu {E : Type} (h : Host E) (label : String) (enabled : Bool)
    (children : List MenuNode) : Except E MenuNode :=
  match h.submenuErr label enabled children with
  | some e => .error e
  | none => .ok (.submenu label enabled children)

/-- `Menu::with_items(app, items)`. -/
def mkMenu {E : Type} (h : Host E) (items : List MenuNode) :
    Except E (List MenuNode) :=
  match h.menuErr items with
  | some e => .error e
  | none => .ok items

/-- `build_menu` from the source.  The nested matches are the `?`
operator: the first creation failure is returned unchanged, and the
calls occur in the source's evaluation order (GLB item, STL item, the
"Export" submenu, then Settings, Logs, Import, the "File" submenu, and
finally the menu itself). -/
def build_menu {E : Type} (h : Host E) : Except E (List MenuNode) :=
  match mkMenuItem h "menu_export_glb" "GLB" true with
  | .error e => .error e
  | .ok glb =>
    match mkMenuItem h "menu_export_stl" "STL" true with
    | .error e => .error e
    | .ok stl =>
      match mkSubmenu h "Export" true [glb, stl] with
      | .error e => .error e
      | .ok export_menu =>
        match mkMenuItem h "menu_settings" "Settings" true with
        | .error e => .error e
        | .ok settings =>
          match mkMenuItem h "menu_logs" "Logs" true with
          | .error e => .error e
          | .ok logs =>
            match mkMenuItem h "menu_import" "Import" true with
            | .error e => .error e
            | .ok importItem =>
              match mkSubmenu h "File" true
                  [settings, logs, importItem, export_menu] with
              | .error e => .error e
              | .ok file_menu => mkMenu h [file_menu]

/-- An emitted event: its name and its string payload. -/
structure Event where
  name : String
  payload : String
  deriving Repr, DecidableEq

/-- `app.emit(name, payload)`: one delivery attempt to the current
subscribers.  `deliver` models the subscriber side (`none` = delivered,
`some e` = delivery failed); the second component is the trace of
emission attempts this call makes, which is always exactly one. -/
def app_emit {E : Type} (deliver : String → String → Option E)
    (name payload : String) : Option E × List Event :=
  (deliver name payload, [⟨name, payload⟩])

/-- `emit_menu_action` from the source:
`let _ = app.emit("menu-action", action);` — the delivery result is
discarded, only the single emission attempt remains. -/
def emit_menu_action {E : Type} (deliver : String → String → Option E)
    (action : String) : List Event :=
  (app_emit deliver "menu-action" action).2

/-- The `on_menu_event` closure from `main`: match on the clicked
identifier, re-emit it verbatim for the five recognized identifiers,
do nothing otherwise.  The result is the trace of emission attempts. -/
def on_menu_event {E : Type} (deliver : String → String → Option E)
    (id : String) : List Event :=
  match id with
  | "menu_settings" => emit_menu_action deliver "menu_settings"
  | "menu_logs" => emit_menu_action deliver "menu_logs"
  | "menu_import" => emit_menu_action deliver "menu_import"
  | "menu_export_glb" => emit_menu_action deliver "menu_export_glb"
  | "menu_export_stl" => emit_menu_action deliver "menu_export_stl"
  | _ => []

/-- The five recognized identifiers, in the order of the dispatcher's
match arms. -/
def recognizedIds : List String :=
  ["menu_settings", "menu_logs", "menu_import",
   "menu_export_glb", "menu_export_stl"]

/-- A sequence of clicks delivered one at a time by the host event
loop; the resulting trace is the concatenation of each dispatch's
trace (the dispatcher holds no state between invocations). -/
def dispatchSeq {E : Type} (deliver : String → String → Option E) :
    List String → List Event
  | [] => []
  | id :: rest => on_menu_event deliver id ++ dispatchSeq deliver rest

mutual

/-- The leaf items `(identifier, label, enabled)` of a menu node, in
display order. -/
def leaves : MenuNode → List (String × String × Bool)
  | .item id label enabled => [(id, label, enabled)]
  | .submenu _ _ children => menuLeaves children

/-- The leaf items of a whole menu (a list of nodes), in display order. -/
def menuLeaves : List MenuNode → List (String × String × Bool)
  | [] => []
  | c :: cs => leaves c ++ menuLeaves cs

end

/-- The leaf identifiers of a whole menu, in display order. -/
def menuLeafIds (m : List MenuNode) : List String :=
  (menuLeaves m).map (fun t => t.1)

/-- The children of the "Export" submenu on the success path. -/
def exportChildren : List MenuNode :=
  [.item "menu_export_glb" "GLB" true,
   .item "menu_export_stl" "STL" true]

/-- The children of the "File" submenu on the success path. -/
def fileChildren : List MenuNode :=
  [.item "menu_settings" "Settings" true,
   .item "menu_logs" "Logs" true,
   .item "menu_import" "Import" true,
   .submenu "Export" true exportChildren]

/-- The menu tree `build_menu` produces whenever the host accepts every
creation call. -/
def builtTree : List MenuNode :=
  [.submenu "File" true fileChildren]

/-- A host that accepts every creation call. -/
def hostOk (E : Type) : Host E :=
  ⟨fun _ _ _ => none, fun _ _ _ => none, fun _ => none⟩

/-- A host that rejects the creation of the GLB menu item. -/
def hostFailGlb : Host Unit :=
  ⟨fun id _ _ => if id = "menu_export_glb" then some () else none,
   fun _ _ _ => none, fun _ => none⟩

/-- Outcome of the process after `main` runs the builder:
`.expect("error while running 3d-gen desktop app")` turns a run error
into a fatal termination carrying that message. -/
inductive ProcessOutcome where
  | running : ProcessOutcome
  | fatal : String → ProcessOutcome
  deriving Repr, DecidableEq

/-- `main`'s final step, `run(...).expect(msg)`: success keeps the app
running, an error from the run (in particular a startup failure of the
menu callback) terminates the process fatally with the expect message. -/
def main_run_outcome {E : Type} (runResult : Except E Unit) : ProcessOutcome :=
  match runResult with
  | .ok _ => .running
  | .error _ => .fatal "error while running 3d-gen desktop app"

/-- The nine points at which the host can reject a creation call during
`build_menu`, each paired with the arguments the source passes there. -/
def hostRejected {E : Type} (h : Host E) (e : E) : Prop :=
  h.itemErr "menu_export_glb" "GLB" true = some e ∨
  h.itemErr "menu_export_stl" "STL" true = some e ∨
  h.submenuErr "Export" true exportChildren = some e ∨
  h.itemErr "menu_settings" "Settings" true = some e ∨
  h.itemErr "menu_logs" "Logs" true = some e ∨
  h.itemErr "menu_import" "Import" true = some e ∨
  h.submenuErr "File" true fileChildren = some e ∨
  h.menuErr builtTree = some e

lemma build_menu_spec {E : Type} (h : Host E) :
    build_menu h = Except.ok builtTree ∨
    ∃ e, build_menu h = Except.error e ∧ hostRejected h e := by
  unfold hostRejected
  simp only [exportChildren, fileChildren, builtTree]
  cases h1 : h.itemErr "menu_export_glb" "GLB" true with
  | some e =>
      refine Or.inr ⟨e, ?_, Or.inl rfl⟩
      simp [build_menu, mkMenuItem, h1]
  | none =>
  cases h2 : h.itemErr "menu_export_stl" "STL" true with
  | some e =>
      refine Or.inr ⟨e, ?_, Or.inr (Or.inl rfl)⟩
      simp [build_menu, mkMenuItem, h1, h2]
  | none =>
  cases h3 : h.submenuErr "Export" true
      [MenuNode.item "menu_export_glb" "GLB" true,
       MenuNode.item "menu_export_stl" "STL" true] with
  | some e =>
      refine Or.inr ⟨e, ?_, Or.inr (Or.inr (Or.inl rfl))⟩
      simp [build_menu, mkMenuItem, mkSubmenu, h1, h2, h3]
  | none =>
  cases h4 : h.itemErr "menu_settings" "Settings" true with
  | some e =>
      refine Or.inr ⟨e, ?_, Or.inr (Or.inr (Or.inr (Or.inl rfl)))⟩
      simp [build_menu, mkMenuItem, mkSubmenu, h1, h2, h3, h4]
  | none =>
  cases h5 : h.itemErr "menu_logs" "Logs" true with
  | some e =>
      refine Or.inr ⟨e, ?_,
        Or.inr (Or.inr (Or.inr (Or.inr (Or.inl rfl))))⟩
      simp [build_menu, mkMenuItem, mkSubmenu, h1, h2, h3, h4, h5]
  | none =>
  cases h6 : h.itemErr "menu_import" "Import" true with
  | some e =>
      refine Or.inr ⟨e, ?_,
        Or.inr (Or.inr (Or.inr (Or.inr (Or.inr (Or.inl rfl)))))⟩
      simp [build_menu, mkMenuItem, mkSubmenu, h1, h2, h3, h4, h5, h6]
  | none =>
  cases h7 : h.submenuErr "File" true
      [MenuNode.item "menu_settings" "Settings" true,
       MenuNode.item "menu_logs" "Logs" true,
       MenuNode.item "menu_import" "Import" true,
       MenuNode.submenu "Export" true
         [MenuNode.item "menu_export_glb" "GLB" true,
          MenuNode.item "menu_export_stl" "STL" true]] with
  | some e =>
      refine Or.inr ⟨e, ?_,
        Or.inr (Or.inr (Or.inr (Or.inr (Or.inr (Or.inr (Or.inl rfl))))))⟩
      simp [build_menu, mkMenuItem, mkSubmenu, h1, h2, h3, h4, h5, h6, h7]
  | none =>
  cases h8 : h.menuErr
      [MenuNode.submenu "File" true
        [MenuNode.item "menu_settings" "Settings" true,
         MenuNode.item "menu_logs" "Logs" true,
         MenuNode.item "menu_import" "Import" true,
         MenuNode.submenu "Export" true
           [MenuNode.item "menu_export_glb" "GLB" true,
            MenuNode.item "menu_export_stl" "STL" true]]] with
  | some e =>
      refine Or.inr ⟨e, ?_,
        Or.inr (Or.inr (Or.inr (Or.inr (Or.inr (Or.inr (Or.inr rfl))))))⟩
      simp [build_menu, mkMenuItem, mkSubmenu, mkMenu,
        h1, h2, h3, h4, h5, h6, h7, h8]
  | none =>
      refine Or.inl ?_
      simp [build_menu, mkMenuItem, mkSubmenu, mkMenu,
        h1, h2, h3, h4, h5, h6, h7, h8]

lemma build_menu_ok_eq {E : Type} (h : Host E) (m : List MenuNode)
    (hm : build_menu h = Except.ok m) : m = builtTree := by
  rcases build_menu_spec h with hok | ⟨e, herr, _⟩
  · rw [hok] at hm
    exact (Except.ok.inj hm).symm
  · rw [herr] at hm
    exact Except.noConfusion hm

lemma on_menu_event_eq {E : Type} (deliver : String → String → Option E)
    (id : String) :
    on_menu_event deliver id =
      if id ∈ recognizedIds then [⟨"menu-action", id⟩] else [] := by
  unfold on_menu_event
  repeat' split
  all_goals simp_all [recognizedIds, emit_menu_action, app_emit]

/-- C1: for each of the 5 recognized identifiers, dispatching that
identifier emits exactly one event, named "menu-action", whose string
payload is the clicked identifier verbatim — the mapping from identifier
to payload is the identity. -/
theorem dispatch_recognized_identity {E : Type}
    (deliver : String → String → Option E) (id : String)
    (hid : id ∈ recognizedIds) :
    on_menu_event deliver id = [⟨"menu-action", id⟩] := by
  rw [on_menu_event_eq, if_pos hid]

theorem dispatch_recognized_identity_witness :
    on_menu_event (fun _ _ => (none : Option Unit)) "menu_settings" =
      [⟨"menu-action", "menu_settings"⟩] ∧
    on_menu_event (fun _ _ => (none : Option Unit)) "menu_logs" =
      [⟨"menu-action", "menu_logs"⟩] ∧
    on_menu_event (fun _ _ => (none : Option Unit)) "menu_import" =
      [⟨"menu-action", "menu_import"⟩] ∧
    on_menu_event (fun _ _ => (none : Option Unit)) "menu_export_glb" =
      [⟨"menu-action", "menu_export_glb"⟩] ∧
    on_menu_event (fun _ _ => (none : Option Unit)) "menu_export_stl" =
      [⟨"menu-action", "menu_export_stl"⟩] :=
  ⟨dispatch_recognized_identity (fun _ _ => none) "menu_settings" (by decide),
   dispatch_recognized_identity (fun _ _ => none) "menu_logs" (by decide),
   dispatch_recognized_identity (fun _ _ => none) "menu_import" (by decide),
   dispatch_recognized_identity (fun _ _ => none) "menu_export_glb" (by decide),
   dispatch_recognized_identity (fun _ _ => none) "menu_export_stl" (by decide)⟩

/-- C2: for every identifier outside the recognized set (for example
"menu_unknown"), dispatching it emits zero events; the handler is a total
function, so the unrecognized click is silently ignored with no error. -/
theorem dispatch_unrecognized_silent {E : Type}
    (deliver : String → String → Option E) (id : String)
    (hid : id ∉ recognizedIds) :
    on_menu_event deliver id = [] := by
  rw [on_menu_event_eq, if_neg hid]

theorem dispatch_unrecognized_silent_witness :
    "menu_unknown" ∉ recognizedIds ∧
    on_menu_event (fun _ _ => (none : Option Unit)) "menu_unknown" = [] :=
  ⟨by decide,
   dispatch_unrecognized_silent (fun _ _ => none) "menu_unknown" (by decide)⟩

/-- C3: invariant over every emission of the dispatcher: any event it ever
emits is named "menu-action" and carries one of the 5 recognized
identifier strings as payload; at most one event is emitted per click,
and no event is emitted for an unrecognized identifier. -/
theorem dispatch_trace_invariant {E : Type}
    (deliver : String → String → Option E) (id : String) :
    (∀ ev ∈ on_menu_event deliver id,
        ev.name = "menu-action" ∧ ev.payload ∈ recognizedIds) ∧
    (on_menu_event deliver id).length ≤ 1 ∧
    (id ∉ recognizedIds → on_menu_event deliver id = []) := by
  rw [on_menu_event_eq]
  by_cases hid : id ∈ recognizedIds
  · rw [if_pos hid]
    refine ⟨?_, by simp, fun hn => absurd hid hn⟩
    intro ev hev
    simp only [List.mem_singleton] at hev
    subst hev
    exact ⟨rfl, hid⟩
  · rw [if_neg hid]
    exact ⟨by simp, by simp, fun _ => rfl⟩

theorem dispatch_trace_invariant_witness :
    (on_menu_event (fun _ _ => (none : Option Unit)) "menu_logs").length ≤ 1 ∧
    on_menu_event (fun _ _ => (none : Option Unit)) "menu_unknown" = [] :=
  ⟨(dispatch_trace_invariant (fun _ _ => none) "menu_logs").2.1,
   (dispatch_trace_invariant (fun _ _ => none) "menu_unknown").2.2 (by decide)⟩

/-- C4: any menu the builder returns consists of exactly one top-level
group labelled "File" containing, in order, Settings, Logs, Import and an
"Export" sub-group containing GLB then STL (4 direct children, the last a
sub-group with 2 children); every leaf is enabled and carries an
identifier from the recognized enumeration. -/
theorem build_menu_shape {E : Type} (h : Host E) (m : List MenuNode)
    (hm : build_menu h = Except.ok m) :
    m = [MenuNode.submenu "File" true
          [MenuNode.item "menu_settings" "Settings" true,
           MenuNode.item "menu_logs" "Logs" true,
           MenuNode.item "menu_import" "Import" true,
           MenuNode.submenu "Export" true
             [MenuNode.item "menu_export_glb" "GLB" true,
              MenuNode.item "menu_export_stl" "STL" true]]] ∧
    m.length = 1 ∧
    (∀ t ∈ menuLeaves m, t.2.2 = true) ∧
    (∀ t ∈ menuLeaves m, t.1 ∈ recognizedIds) := by
  have hb := build_menu_ok_eq h m hm
  subst hb
  exact ⟨rfl, rfl, by decide, by decide⟩

theorem build_menu_shape_witness :
    build_menu (hostOk Unit) = Except.ok builtTree ∧
    (builtTree = [MenuNode.submenu "File" true
          [MenuNode.item "menu_settings" "Settings" true,
           MenuNode.item "menu_logs" "Logs" true,
           MenuNode.item "menu_import" "Import" true,
           MenuNode.submenu "Export" true
             [MenuNode.item "menu_export_glb" "GLB" true,
              MenuNode.item "menu_export_stl" "STL" true]]] ∧
     builtTree.length = 1 ∧
     (∀ t ∈ menuLeaves builtTree, t.2.2 = true) ∧
     (∀ t ∈ menuLeaves builtTree, t.1 ∈ recognizedIds)) :=
  ⟨rfl, build_menu_shape (hostOk Unit) builtTree rfl⟩

/-- C5 counterexample: the menu built on the success path has exactly 5
leaf identifiers, so the claimed count of 6 is false. -/
theorem leaf_count_not_six :
    build_menu (hostOk Unit) = Except.ok builtTree ∧
    (menuLeafIds builtTree).length = 5 ∧
    ¬ (menuLeafIds builtTree).length = 6 :=
  ⟨rfl, rfl, by decide⟩

/-- C5 (amended): any menu the builder returns has exactly 5 leaf
identifiers, pairwise distinct, and they are exactly the recognized set
(here even in the same order). -/
theorem leaf_ids_match_recognized {E : Type} (h : Host E)
    (m : List MenuNode) (hm : build_menu h = Except.ok m) :
    (menuLeafIds m).length = 5 ∧ (menuLeafIds m).Nodup ∧
    menuLeafIds m = recognizedIds := by
  have hb := build_menu_ok_eq h m hm
  subst hb
  exact ⟨rfl, by decide, rfl⟩

theorem leaf_ids_match_recognized_witness :
    build_menu (hostOk Unit) = Except.ok builtTree ∧
    ((menuLeafIds builtTree).length = 5 ∧ (menuLeafIds builtTree).Nodup ∧
     menuLeafIds builtTree = recognizedIds) :=
  ⟨rfl, leaf_ids_match_recognized (hostOk Unit) builtTree rfl⟩

/-- C6: the dispatcher is stateless and memoryless: the trace of a
sequence of dispatches is the concatenation of the traces of each
dispatch taken independently; N repetitions of "menu_logs" emit exactly N
events with that payload, and interleaving an unrecognized identifier
between two recognized clicks yields exactly 2 events. -/
theorem dispatch_stateless {E : Type} (deliver : String → String → Option E)
    (n : Nat) (xs ys : List String) :
    dispatchSeq deliver (xs ++ ys) =
      dispatchSeq deliver xs ++ dispatchSeq deliver ys ∧
    dispatchSeq deliver (List.replicate n "menu_logs") =
      List.replicate n ⟨"menu-action", "menu_logs"⟩ ∧
    dispatchSeq deliver ["menu_logs", "menu_unknown", "menu_logs"] =
      [⟨"menu-action", "menu_logs"⟩, ⟨"menu-action", "menu_logs"⟩] := by
  refine ⟨?_, ?_, rfl⟩
  · induction xs with
    | nil => rfl
    | cons a as ih =>
        show on_menu_event deliver a ++ dispatchSeq deliver (as ++ ys) = _
        rw [ih]
        simp [dispatchSeq]
  · induction n with
    | zero => rfl
    | succ k ih =>
        rw [List.replicate_succ, List.replicate_succ]
        show on_menu_event deliver "menu_logs" ++
          dispatchSeq deliver (List.replicate k "menu_logs") = _
        rw [ih]
        rfl

/-- C7: event emission is fire-and-forget: when the underlying emit of the
menu-action event reports a delivery failure, the failure is discarded —
the function still returns the same single emission attempt, with no
error reported and no retry. -/
theorem emit_fire_and_forget {E : Type}
    (deliver : String → String → Option E) (action : String) (e : E)
    (hfail : deliver "menu-action" action = some e) :
    (app_emit deliver "menu-action" action).1 = some e ∧
    emit_menu_action deliver action = [⟨"menu-action", action⟩] :=
  ⟨hfail, rfl⟩

theorem emit_fire_and_forget_witness :
    (fun _ _ => (some () : Option Unit)) "menu-action" "menu_logs" = some () ∧
    ((app_emit (fun _ _ => (some () : Option Unit))
        "menu-action" "menu_logs").1 = some () ∧
     emit_menu_action (fun _ _ => (some () : Option Unit)) "menu_logs" =
       [⟨"menu-action", "menu_logs"⟩]) :=
  ⟨rfl, emit_fire_and_forget (fun _ _ => some ()) "menu_logs" () rfl⟩

/-- C8: menu construction fails only when the host windowing layer rejects
one of the creation calls, and then the host's error value is propagated
unchanged (no recovery, no retry, no partial menu is returned); main
turns a failed run into a fatal termination carrying the expect message. -/
theorem build_menu_error_propagation {E : Type} (h : Host E) (e : E)
    (he : build_menu h = Except.error e) :
    hostRejected h e ∧
    main_run_outcome (Except.error e : Except E Unit) =
      ProcessOutcome.fatal "error while running 3d-gen desktop app" := by
  rcases build_menu_spec h with hok | ⟨e2, herr, hrej⟩
  · rw [hok] at he
    exact Except.noConfusion he
  · rw [herr] at he
    have he2 : e2 = e := Except.error.inj he
    subst he2
    exact ⟨hrej, rfl⟩

theorem build_menu_error_propagation_witness :
    build_menu hostFailGlb = Except.error () ∧
    (hostRejected hostFailGlb () ∧
     main_run_outcome (Except.error () : Except Unit Unit) =
       ProcessOutcome.fatal "error while running 3d-gen desktop app") :=
  ⟨rfl, build_menu_error_propagation hostFailGlb () rfl⟩

/-- C9: builder/dispatcher consistency: every leaf identifier of any menu
the builder returns is handled by the dispatcher — clicking it emits the
menu-action event carrying that identifier, so no built item is silently
dropped. -/
theorem builder_dispatcher_consistency {E F : Type} (h : Host E)
    (deliver : String → String → Option F) (m : List MenuNode) (id : String)
    (hm : build_menu h = Except.ok m) (hid : id ∈ menuLeafIds m) :
    on_menu_event deliver id = [⟨"menu-action", id⟩] ∧
    on_menu_event deliver id ≠ [] := by
  have hb := build_menu_ok_eq h m hm
  subst hb
  have hr : id ∈ recognizedIds := by
    have hids : menuLeafIds builtTree = recognizedIds := rfl
    rwa [hids] at hid
  constructor
  · rw [on_menu_event_eq, if_pos hr]
  · rw [on_menu_event_eq, if_pos hr]
    simp

theorem builder_dispatcher_consistency_witness :
    build_menu (hostOk Unit) = Except.ok builtTree ∧
    "menu_import" ∈ menuLeafIds builtTree ∧
    (on_menu_event (fun _ _ => (none : Option Unit)) "menu_import" =
       [⟨"menu-action", "menu_import"⟩] ∧
     on_menu_event (fun _ _ => (none : Option Unit)) "menu_import" ≠ []) :=
  ⟨rfl, by decide,
   builder_dispatcher_consistency (hostOk Unit) (fun _ _ => none)
     builtTree "menu_import" rfl (by decide)⟩

/-- C10: dispatcher totality: for every identifier string — the empty
string and arbitrary unrecognized strings included — the handler is a
total function that takes either one of the 5 emit branches (emitting the
single identity event) or the catch-all branch (emitting nothing). -/
theorem dispatcher_total {E : Type} (deliver : String → String → Option E)
    (id : String) :
    (id ∈ recognizedIds ∧ on_menu_event deliver id = [⟨"menu-action", id⟩]) ∨
    (id ∉ recognizedIds ∧ on_menu_event deliver id = []) := by
  by_cases hid : id ∈ recognizedIds
  · exact Or.inl ⟨hid, by rw [on_menu_event_eq, if_pos hid]⟩
  · exact Or.inr ⟨hid, by rw [on_menu_event_eq, if_neg hid]⟩

end LoCo
